import Mathlib

/-!
Verification development for the persistent TTS sidecar subprocess
(`sidecar/tts-server.py`).

The program is shallowly embedded:

* JSON values produced by `json.loads` are modelled by `PyVal`; an input
  line is represented by the outcome of `line.strip()` / `json.loads(line)`
  (`StdinLine`), since JSON parsing is done by an external library.
* Audio samples are modelled as exact rationals; `numpy`'s clip / scale /
  `astype(np.int16)` pipeline becomes `clampQ`, multiplication by 32767 and
  truncation toward zero, with two's-complement little-endian serialization.
* The lazy model stream `model.generate(text, voice, stream=True)` is an
  opaque external collaborator; one run of it is a `List StreamItem`:
  each pull either yields an audio chunk or raises an exception.
* Output frames are tagged events (`OutEvent`): a data frame written by
  `write_audio_chunk`, or the end-of-generation marker written by
  `write_end_marker`.  `wireOfEvent` gives the bytes actually written.
* The interrupt flag, within a single generation, is monotone (only the
  stdin reader sets it; the controller clears it only before a generation
  starts), so it is modelled by the index of the first chunk-check at which
  it is observed set (`Option Nat`, `none` = never set).
* The concurrent interplay of the stdin-reader thread and the main loop is
  modelled by a small-step system `Sys` with an explicit interleaving
  schedule (`List Lbl`).
-/

namespace TtsServer

/-- A Python value as returned by `json.loads`. -/
inductive PyVal
  | dict (fields : List (String × PyVal))
  | str (s : String)
  | int (n : Int)
  | list (elems : List PyVal)
  | bool (b : Bool)
  | none

/-- Python `v == "lit"` for a string literal: true only when `v` is that string. -/
def PyVal.eqStr : PyVal → String → Bool
  | PyVal.str s, t => s == t
  | _, _ => false

/-- Python `v.get(key)`: returns the value bound to `key` (the last binding
wins, as `json.loads` keeps the last duplicate key), `None` when the key is
absent, and raises `AttributeError` when `v` is not a dict. -/
def pyGet : PyVal → String → Except String PyVal
  | PyVal.dict fields, key =>
    match fields.reverse.find? (fun p => p.1 == key) with
    | some p => Except.ok p.2
    | Option.none => Except.ok PyVal.none
  | _, _ => Except.error "AttributeError"

/-- Rendering of a `PyVal` inside an f-string (nested containers abbreviated). -/
def pyShow : PyVal → String
  | PyVal.str s => s
  | PyVal.int n => toString n
  | PyVal.bool b => if b then "True" else "False"
  | PyVal.none => "None"
  | PyVal.dict _ => "\x7b...\x7d"
  | PyVal.list _ => "[...]"

/-- Message produced by `log(msg)`: the `"[tts-server] "` prefixed stderr line. -/
def log_line (msg : String) : String := "[tts-server] " ++ msg

/-- One stdin line, represented by the outcome of `line.strip()` and
`json.loads(line)` (the parser is the external `json` library):
blank after stripping, a `JSONDecodeError` with its message, or a parsed value. -/
inductive StdinLine
  | blank
  | invalid (msg : String)
  | ok (v : PyVal)

/-- The effect of `stdin_reader` on one line. -/
inductive ReaderAction
  | skip
  | log (msg : String)
  | setFlag
  | enqueue (v : PyVal)
  | crash (msg : String)

/-- The body of the `stdin_reader` loop for one line (tts-server.py lines
89-102): blank lines are skipped, JSON decode errors are logged and the line
dropped, a parsed object whose `cmd` equals `"interrupt"` sets the flag,
every other parsed object is queued.  `cmd.get("cmd")` on a non-dict raises
an uncaught `AttributeError` (only `JSONDecodeError` is caught). -/
def readLine : StdinLine → ReaderAction
  | StdinLine.blank => ReaderAction.skip
  | StdinLine.invalid m => ReaderAction.log (log_line ("ERROR: Invalid JSON: " ++ m))
  | StdinLine.ok v =>
    match pyGet v "cmd" with
    | Except.error m => ReaderAction.crash m
    | Except.ok tag =>
      if tag.eqStr "interrupt" then ReaderAction.setFlag else ReaderAction.enqueue v

/-- Python `not text.strip()`: true iff every character of `text` is whitespace
(i.e. stripping leaves the empty string). -/
def strip_empty (text : String) : Bool := text.data.all (fun c => c.isWhitespace)

/-- Clamping of one sample: `np.clip(audio, -1.0, 1.0)` per element. -/
def clampQ (x : ℚ) : ℚ := max (-1) (min 1 x)

/-- Truncation toward zero: the conversion performed per element by
`.astype(np.int16)` on a value that fits in the target range. -/
def truncQ (x : ℚ) : Int := if 0 ≤ x then ⌊x⌋ else ⌈x⌉

/-- Two's-complement little-endian serialization of one 16-bit sample, as
`int16.tobytes()` lays it out. -/
def int16ToBytesLE (v : Int) : List Nat :=
  [(v % 65536).toNat % 256, (v % 65536).toNat / 256]

/-- The PCM encoder `float32_to_int16_pcm` (tts-server.py lines 156-165):
clamp each sample to [-1, 1], scale by 32767, truncate toward zero to a
signed 16-bit integer, serialize little-endian. -/
def float32_to_int16_pcm (audio : List ℚ) : List Nat :=
  (audio.map (fun s => int16ToBytesLE (truncQ (clampQ s * 32767)))).flatten

/-- One output event of a generation: a data frame written by
`write_audio_chunk`, or the end-of-generation marker written by
`write_end_marker`. -/
inductive OutEvent
  | data (payload : List Nat)
  | marker
deriving DecidableEq

/-- Bytes of `struct.pack(">I", n)`: 4-byte big-endian unsigned length. -/
def pack_u32_be (n : Nat) : List Nat :=
  [n / 2 ^ 24 % 256, n / 2 ^ 16 % 256, n / 2 ^ 8 % 256, n % 256]

/-- Bytes actually written to stdout for one event: `write_audio_chunk`
writes the length header then the payload, `write_end_marker` writes a
zero length header. -/
def wireOfEvent : OutEvent → List Nat
  | OutEvent.data p => pack_u32_be p.length ++ p
  | OutEvent.marker => pack_u32_be 0

/-- Concatenated stdout bytes of a list of output events. -/
def wireOutput (evs : List OutEvent) : List Nat := (evs.map wireOfEvent).flatten

/-- Whether an event is the end-of-generation marker. -/
def isMarker : OutEvent → Bool
  | OutEvent.marker => true
  | _ => false

/-- The events emitted before the first end-of-generation marker. -/
def preMarker (evs : List OutEvent) : List OutEvent :=
  evs.takeWhile (fun e => !isMarker e)

/-- One pull from the model's lazy stream: it yields an audio chunk, or
raises an exception with a message. -/
inductive StreamItem
  | chunk (audio : List ℚ)
  | err (msg : String)

/-- Value of `interrupted.is_set()` at the check preceding chunk index `i`,
for a flag that becomes set just before check `n` (and, being monotone
within a generation, stays set). -/
def flagSet : Option Nat → Nat → Bool
  | Option.none, _ => false
  | some n, i => decide (n ≤ i)

/-- The `for result in results` loop of `handle_generate` (lines 138-144
with the `except` clause of 146-147): each iteration first pulls the next
item (an exception here is caught, logged, and ends the loop), then checks
the interrupt flag and breaks if set, then encodes and writes the chunk.
Returns the data events written and the log lines emitted. -/
def gen_loop : List StreamItem → Option Nat → Nat → List OutEvent × List String
  | [], _, _ => ([], [])
  | StreamItem.err m :: _, _, _ => ([], [log_line ("ERROR: Generation failed: " ++ m)])
  | StreamItem.chunk a :: rest, intr, i =>
    if flagSet intr i then ([], [])
    else
      let r := gen_loop rest intr (i + 1)
      (OutEvent.data (float32_to_int16_pcm a) :: r.1, r.2)

/-- The generation routine `handle_generate` (lines 122-149): empty or
whitespace-only text writes only the end marker; otherwise the stream is
consumed by `gen_loop` and the end marker is always written afterwards. -/
def handle_generate (text : String) (stream : List StreamItem) (intr : Option Nat) :
    List OutEvent × List String :=
  if strip_empty text then ([OutEvent.marker], [])
  else
    let r := gen_loop stream intr 0
    (r.1 ++ [OutEvent.marker], r.2)

/-- Result of the controller's main loop (tts-server.py lines 108-117) over a
finite list of queued commands: the output events written to stdout, the log
lines written to stderr, and whether the loop died from an uncaught
exception (which would abort the whole process). -/
structure MainRes where
  output : List OutEvent
  logs : List String
  crashed : Bool

/-- The string `handle_generate` receives as `text`: `cmd.get("text", "")`
returns the bound value, or `""` when the key is absent; when the bound
value is not a string (or `cmd` is not a dict), the later `text.strip()`
raises an uncaught `AttributeError`, modelled as `none`. -/
def textArg (c : PyVal) : Option String :=
  match c with
  | PyVal.dict fields =>
    match fields.reverse.find? (fun p => p.1 == "text") with
    | Option.none => some ""
    | some p =>
      match p.2 with
      | PyVal.str s => some s
      | _ => Option.none
  | _ => Option.none

/-- The controller's main loop (lines 108-117), run over a finite list of
already-queued commands: `generate` clears the flag (so generation number
`gi` runs against its own interrupt schedule `intr gi`) and runs
`handle_generate`; `quit` breaks out of the loop; anything else logs an
unknown-command diagnostic.  `modelOf t` is the chunk/error sequence the
opaque model adapter produces for text `t`. -/
def main_loop (modelOf : String → List StreamItem) (intr : Nat → Option Nat) :
    List PyVal → Nat → MainRes
  | [], _ => ⟨[], [], false⟩
  | c :: rest, gi =>
    match pyGet c "cmd" with
    | Except.error _ => ⟨[], [], true⟩
    | Except.ok tag =>
      if tag.eqStr "generate" then
        match textArg c with
        | Option.none => ⟨[], [], true⟩
        | some t =>
          let g := handle_generate t (modelOf t) (intr gi)
          let r := main_loop modelOf intr rest (gi + 1)
          ⟨g.1 ++ r.output, g.2 ++ r.logs, r.crashed⟩
      else if tag.eqStr "quit" then ⟨[], [], false⟩
      else
        let r := main_loop modelOf intr rest gi
        ⟨r.output, log_line ("ERROR: Unknown command: " ++ pyShow tag) :: r.logs, r.crashed⟩

/-- One line on the diagnostic (stderr) stream: either a `log()` line, which
carries the `"[tts-server] "` prefix on the wire, or the bare `READY`
sentinel. -/
inductive DiagLine
  | log (msg : String)
  | ready
deriving DecidableEq

/-- Whether a diagnostic line is the bare `READY` sentinel. -/
def isReady : DiagLine → Bool
  | DiagLine.ready => true
  | _ => false

/-- Outcome of startup (tts-server.py lines 50-77): the stderr lines written,
the exit code (`some c` when `sys.exit(c)` ran, `none` when startup fell
through to the command loop), and how many warm-up generations were
attempted. -/
structure StartupRes where
  diag : List DiagLine
  exitCode : Option Nat
  warmupAttempts : Nat

/-- The startup sequence of `main` (lines 56-77): log, load the model
(failure logs a distinguished error and exits with code 1), log, attempt
exactly one warm-up generation (failure logs a warning and continues),
then write `READY`.  `load` and `warmup` are the outcomes of the two
external calls. -/
def startup (modelId : String) (sampleRate : Nat)
    (load : Except String Unit) (warmup : Except String Unit) : StartupRes :=
  match load with
  | Except.error e =>
    ⟨[DiagLine.log ("Loading model: " ++ modelId),
      DiagLine.log ("ERROR: Failed to load model: " ++ e)], some 1, 0⟩
  | Except.ok _ =>
    let pre := [DiagLine.log ("Loading model: " ++ modelId),
      DiagLine.log ("Model loaded (sample_rate=" ++ toString sampleRate ++ ")"),
      DiagLine.log "Warming up..."]
    match warmup with
    | Except.ok _ =>
      ⟨pre ++ [DiagLine.log "Warm-up done", DiagLine.ready], Option.none, 1⟩
    | Except.error e =>
      ⟨pre ++ [DiagLine.log ("WARNING: Warm-up failed: " ++ e), DiagLine.ready],
        Option.none, 1⟩

/-- State of the stdin-reader thread: the interrupt flag and queue it has
written, the diagnostics it has logged, and whether it died from an
uncaught exception. -/
structure ReaderState where
  flag : Bool
  queue : List PyVal
  logs : List String
  dead : Bool

/-- Effect of the reader thread processing one stdin line: applies the
action computed by `readLine`; an uncaught exception kills the thread, so a
dead reader processes nothing further. -/
def reader_step (st : ReaderState) (l : StdinLine) : ReaderState :=
  if st.dead then st else
  match readLine l with
  | ReaderAction.skip => st
  | ReaderAction.log m => { st with logs := st.logs ++ [m] }
  | ReaderAction.setFlag => { st with flag := true }
  | ReaderAction.enqueue v => { st with queue := st.queue ++ [v] }
  | ReaderAction.crash _ => { st with dead := true }

/-- The `stdin_reader` thread run over a finite list of stdin lines. -/
def stdin_reader (lines : List StdinLine) : ReaderState :=
  lines.foldl reader_step ⟨false, [], [], false⟩

/-- What the main thread is doing: waiting on the queue, or mid-way through
iterating one generation's model stream. -/
inductive Phase
  | idle
  | gen (pending : List StreamItem)

/-- Joint state of the two concurrent execution contexts: the stdin lines
not yet consumed, the shared interrupt flag and command queue, the
controller phase, the stdout events and stderr log lines emitted so far,
and whether the reader thread died or the main loop stopped. -/
structure Sys where
  stdin : List StdinLine
  flag : Bool
  queue : List PyVal
  phase : Phase
  output : List OutEvent
  logs : List String
  readerDead : Bool
  stopped : Bool

/-- Scheduler label: which execution context performs the next atomic step. -/
inductive Lbl
  | reader
  | ctl

/-- One atomic step of the reader thread: consume the next stdin line and
apply `readLine`'s action to the shared state. -/
def readerStep (s : Sys) : Sys :=
  if s.readerDead then s else
  match s.stdin with
  | [] => s
  | l :: rest =>
    match readLine l with
    | ReaderAction.skip => { s with stdin := rest }
    | ReaderAction.log m => { s with stdin := rest, logs := s.logs ++ [m] }
    | ReaderAction.setFlag => { s with stdin := rest, flag := true }
    | ReaderAction.enqueue v => { s with stdin := rest, queue := s.queue ++ [v] }
    | ReaderAction.crash _ => { s with stdin := rest, readerDead := true }

/-- One atomic step of the controller.  Mid-generation (`Phase.gen`), one
step is one iteration of the `for result in results` loop of
`handle_generate`: pull the next item (an exception logs and ends the
generation), check the live interrupt flag and break if set, else encode
and write the chunk; an exhausted or ended stream writes the end marker.
When idle, one step pops and dispatches the next queued command
(lines 108-117): `generate` clears the shared flag then begins the
generation (empty or whitespace-only text writes only the end marker and
never touches the model); `quit` stops the loop; an unknown command logs a
diagnostic; a command on which `cmd.get` or `text.strip()` would raise
kills the main thread. -/
def ctlStep (modelOf : String → List StreamItem) (s : Sys) : Sys :=
  if s.stopped then s else
  match s.phase with
  | Phase.gen pending =>
    match pending with
    | [] => { s with phase := Phase.idle, output := s.output ++ [OutEvent.marker] }
    | StreamItem.err m :: _ =>
      { s with
          phase := Phase.idle,
          logs := s.logs ++ [log_line ("ERROR: Generation failed: " ++ m)],
          output := s.output ++ [OutEvent.marker] }
    | StreamItem.chunk a :: rest =>
      if s.flag then
        { s with phase := Phase.idle, output := s.output ++ [OutEvent.marker] }
      else
        { s with
            phase := Phase.gen rest,
            output := s.output ++ [OutEvent.data (float32_to_int16_pcm a)] }
  | Phase.idle =>
    match s.queue with
    | [] => s
    | c :: rest =>
      match pyGet c "cmd" with
      | Except.error _ => { s with queue := rest, stopped := true }
      | Except.ok tag =>
        if tag.eqStr "generate" then
          match textArg c with
          | Option.none => { s with queue := rest, stopped := true }
          | some t =>
            if strip_empty t then
              { s with
                  queue := rest,
                  flag := false,
                  output := s.output ++ [OutEvent.marker] }
            else
              { s with queue := rest, flag := false, phase := Phase.gen (modelOf t) }
        else if tag.eqStr "quit" then { s with queue := rest, stopped := true }
        else
          { s with
              queue := rest,
              logs := s.logs ++ [log_line ("ERROR: Unknown command: " ++ pyShow tag)] }

/-- One scheduled atomic step. -/
def step (modelOf : String → List StreamItem) (s : Sys) : Lbl → Sys
  | Lbl.reader => readerStep s
  | Lbl.ctl => ctlStep modelOf s

/-- Run the interleaved system under an explicit schedule. -/
def run (modelOf : String → List StreamItem) : Sys → List Lbl → Sys
  | s, [] => s
  | s, l :: ls => run modelOf (step modelOf s l) ls

/-- Number of controller steps in a schedule. -/
def ctlCount : List Lbl → Nat
  | [] => 0
  | Lbl.ctl :: ls => ctlCount ls + 1
  | Lbl.reader :: ls => ctlCount ls

/-- No line among the given stdin lines is an interrupt command. -/
def noInterrupt (lines : List StdinLine) : Prop :=
  ∀ l ∈ lines, readLine l ≠ ReaderAction.setFlag

/-- A concrete system state whose next stdin line is an interrupt command. -/
def readerWitnessSys : Sys :=
  ⟨[StdinLine.ok (PyVal.dict [("cmd", PyVal.str "interrupt")])], false, [],
    Phase.idle, [], [], false, false⟩

/-- A concrete system state in which the flag is still set from an interrupt
observed during a previous generation while Generate was already queued. -/
def scopeWitnessSys : Sys :=
  ⟨[], true, [PyVal.dict [("cmd", PyVal.str "generate"), ("text", PyVal.str "b")]],
    Phase.idle, [], [], false, false⟩

/-! Helper lemmas about the generation routine. -/

lemma gen_loop_no_marker : ∀ (stream : List StreamItem) (intr : Option Nat) (i : Nat),
    ∀ f ∈ (gen_loop stream intr i).1, f ≠ OutEvent.marker := by
  intro stream
  induction stream with
  | nil => intro intr i f hf; simp [gen_loop] at hf
  | cons item rest ih =>
    intro intr i f hf
    cases item with
    | err m => simp [gen_loop] at hf
    | chunk a =>
      simp only [gen_loop] at hf
      by_cases h : flagSet intr i = true
      · simp [h] at hf
      · simp only [h, if_false, Bool.false_eq_true] at hf
        rcases List.mem_cons.mp hf with rfl | hf'
        · simp
        · exact ih intr (i + 1) f hf'

lemma handle_generate_shape (text : String) (stream : List StreamItem) (intr : Option Nat) :
    ∃ ds, (handle_generate text stream intr).1 = ds ++ [OutEvent.marker] ∧
      ∀ f ∈ ds, f ≠ OutEvent.marker := by
  unfold handle_generate
  cases h : strip_empty text with
  | true => exact ⟨[], by simp, by simp⟩
  | false =>
    refine ⟨(gen_loop stream intr 0).1, by simp, ?_⟩
    exact gen_loop_no_marker stream intr 0

lemma gen_loop_chunks_none : ∀ (chunks : List (List ℚ)) (i : Nat),
    gen_loop (chunks.map StreamItem.chunk) Option.none i
      = (chunks.map (fun a => OutEvent.data (float32_to_int16_pcm a)), []) := by
  intro chunks
  induction chunks with
  | nil => intro i; rfl
  | cons a as ih => intro i; simp [gen_loop, flagSet, ih (i + 1)]

lemma gen_loop_chunks_some : ∀ (chunks : List (List ℚ)) (k i : Nat),
    gen_loop (chunks.map StreamItem.chunk) (some k) i
      = ((chunks.take (k - i)).map (fun a => OutEvent.data (float32_to_int16_pcm a)), []) := by
  intro chunks
  induction chunks with
  | nil => intro k i; simp [gen_loop]
  | cons a as ih =>
    intro k i
    simp only [List.map_cons, gen_loop, flagSet]
    by_cases h : k ≤ i
    · have h0 : k - i = 0 := by omega
      simp [h, h0]
    · have h2 : k - i = (k - (i + 1)) + 1 := by omega
      simp [h, ih k (i + 1), h2]

lemma preMarker_data_marker : ∀ (ds : List OutEvent), (∀ f ∈ ds, isMarker f = false) →
    preMarker (ds ++ [OutEvent.marker]) = ds := by
  intro ds
  induction ds with
  | nil => intro _; rfl
  | cons f fs ih =>
    intro h
    have hf : isMarker f = false := h f (List.mem_cons_self f fs)
    simp only [List.cons_append, preMarker, List.takeWhile_cons, hf]
    simp only [Bool.not_false, if_true]
    have := ih fun g hg => h g (List.mem_cons_of_mem f hg)
    simp only [preMarker] at this
    simp [this]

lemma wireOutput_append (a b : List OutEvent) :
    wireOutput (a ++ b) = wireOutput a ++ wireOutput b := by
  simp [wireOutput]

lemma data_map_no_marker (chunks : List (List ℚ)) :
    ∀ f ∈ chunks.map (fun a => OutEvent.data (float32_to_int16_pcm a)), isMarker f = false := by
  intro f hf
  rcases List.mem_map.mp hf with ⟨a, _, rfl⟩
  rfl

/-! Claim theorems: generation routine. -/

/-- C1: for every handled generate request — empty or whitespace text, text
that streams to completion, text whose model stream raises mid-iteration,
and text interrupted mid-stream (all captured by quantifying over the text,
the stream items and the interrupt schedule) — `handle_generate` emits
exactly one end-of-generation sentinel, and it comes after all data frames
of the generation. -/
theorem generation_exactly_one_sentinel (text : String) (stream : List StreamItem)
    (intr : Option Nat) :
    ∃ ds, (handle_generate text stream intr).1 = ds ++ [OutEvent.marker] ∧
      ∀ f ∈ ds, f ≠ OutEvent.marker :=
  handle_generate_shape text stream intr

/-- C2: if the interrupt flag becomes set after chunk `k` is written and
before chunk `k+1` is consumed (interrupt schedule `some k`, with at least
`k+1` chunks in the stream), the generation emits at most `k` data frames
followed by exactly one end marker, and the bytes written before the marker
are a strict prefix of the bytes of the uninterrupted run. -/
theorem interrupt_truncates_stream (chunks : List (List ℚ)) (k : Nat) (text : String)
    (htext : strip_empty text = false) (hk : k < chunks.length) :
    (handle_generate text (chunks.map StreamItem.chunk) (some k)).1
      = (chunks.take k).map (fun a => OutEvent.data (float32_to_int16_pcm a))
          ++ [OutEvent.marker] ∧
    (preMarker (handle_generate text (chunks.map StreamItem.chunk) (some k)).1).length ≤ k ∧
    (∃ t0, wireOutput (preMarker (handle_generate text (chunks.map StreamItem.chunk) (some k)).1)
          ++ t0
        = wireOutput (handle_generate text (chunks.map StreamItem.chunk) Option.none).1
      ∧ t0 ≠ []) ∧
    (∃ t1, wireOutput (preMarker (handle_generate text (chunks.map StreamItem.chunk) (some k)).1)
          ++ t1
        = wireOutput (preMarker
            (handle_generate text (chunks.map StreamItem.chunk) Option.none).1)
      ∧ t1 ≠ []) := by
  have hsome : (handle_generate text (chunks.map StreamItem.chunk) (some k)).1
      = (chunks.take k).map (fun a => OutEvent.data (float32_to_int16_pcm a))
        ++ [OutEvent.marker] := by
    simp [handle_generate, htext, gen_loop_chunks_some]
  have hnone : (handle_generate text (chunks.map StreamItem.chunk) Option.none).1
      = chunks.map (fun a => OutEvent.data (float32_to_int16_pcm a)) ++ [OutEvent.marker] := by
    simp [handle_generate, htext, gen_loop_chunks_none]
  have hpre : preMarker (handle_generate text (chunks.map StreamItem.chunk) (some k)).1
      = (chunks.take k).map (fun a => OutEvent.data (float32_to_int16_pcm a)) := by
    rw [hsome]
    exact preMarker_data_marker _ (data_map_no_marker (chunks.take k))
  have hpre' : preMarker (handle_generate text (chunks.map StreamItem.chunk) Option.none).1
      = chunks.map (fun a => OutEvent.data (float32_to_int16_pcm a)) := by
    rw [hnone]
    exact preMarker_data_marker _ (data_map_no_marker chunks)
  have hsplit : chunks.map (fun a => OutEvent.data (float32_to_int16_pcm a))
      = (chunks.take k).map (fun a => OutEvent.data (float32_to_int16_pcm a))
        ++ (chunks.drop k).map (fun a => OutEvent.data (float32_to_int16_pcm a)) := by
    rw [← List.map_append, List.take_append_drop]
  have hdropne : chunks.drop k ≠ [] := by
    intro hnil
    have := congrArg List.length hnil
    simp [List.length_drop] at this
    omega
  have hwnz : wireOutput ((chunks.drop k).map
      (fun a => OutEvent.data (float32_to_int16_pcm a))) ≠ [] := by
    rcases hd : chunks.drop k with _ | ⟨c, cs⟩
    · exact absurd hd hdropne
    · simp [wireOutput, wireOfEvent, pack_u32_be]
  refine ⟨hsome, ?_, ?_, ?_⟩
  · rw [hpre]
    simp [List.length_take]
  · refine ⟨wireOutput ((chunks.drop k).map (fun a => OutEvent.data (float32_to_int16_pcm a)))
        ++ wireOutput [OutEvent.marker], ?_, ?_⟩
    · rw [hpre, hnone]
      rw [hsplit, wireOutput_append, wireOutput_append, List.append_assoc]
    · intro h
      have := List.append_eq_nil.mp h
      have h4 : wireOutput [OutEvent.marker] = [0, 0, 0, 0] := by decide
      rw [h4] at this
      exact absurd this.2 (by simp)
  · refine ⟨wireOutput ((chunks.drop k).map (fun a => OutEvent.data (float32_to_int16_pcm a))),
        ?_, hwnz⟩
    rw [hpre, hpre', hsplit, wireOutput_append]

/-- C4 (code bug): the code does not filter empty audio chunks.  A model
stream that yields one empty chunk makes `handle_generate` write a
zero-length data frame, whose bytes on the wire are identical to the
end-of-generation sentinel, so the generation's wire output contains two
zero-length frames instead of one. -/
theorem empty_chunk_written_not_filtered :
    handle_generate "hi" [StreamItem.chunk []] Option.none
      = ([OutEvent.data [], OutEvent.marker], []) ∧
    wireOfEvent (OutEvent.data []) = wireOfEvent OutEvent.marker ∧
    wireOutput (handle_generate "hi" [StreamItem.chunk []] Option.none).1
      = [0, 0, 0, 0, 0, 0, 0, 0] := by
  refine ⟨by decide, by decide, by decide⟩

/-- C6: the PCM encoder clamps each sample to [-1, 1], scales by 32767,
truncates toward zero to a value within the signed 16-bit range, and
serializes little-endian, per sample; saturated inputs encode like the
bounds (`encode 2 = encode 1`, `encode (-5) = encode (-1)`) and zero
encodes to the zero int16. -/
theorem pcm_encoder_clamps_and_truncates :
    (∀ x : ℚ, 1 ≤ x → float32_to_int16_pcm [x] = float32_to_int16_pcm [1]) ∧
    (∀ x : ℚ, x ≤ -1 → float32_to_int16_pcm [x] = float32_to_int16_pcm [-1]) ∧
    float32_to_int16_pcm [2] = float32_to_int16_pcm [1] ∧
    float32_to_int16_pcm [-5] = float32_to_int16_pcm [-1] ∧
    float32_to_int16_pcm [0] = [0, 0] ∧
    (∀ x : ℚ, -32767 ≤ truncQ (clampQ x * 32767) ∧ truncQ (clampQ x * 32767) ≤ 32767) ∧
    (∀ audio : List ℚ, float32_to_int16_pcm audio
      = (audio.map (fun s => int16ToBytesLE (truncQ (clampQ s * 32767)))).flatten) := by
  have hclamp_hi : ∀ x : ℚ, 1 ≤ x → clampQ x = 1 := by
    intro x hx
    unfold clampQ
    rw [min_eq_left hx]
    exact max_eq_right (by norm_num)
  have hclamp_lo : ∀ x : ℚ, x ≤ -1 → clampQ x = -1 := by
    intro x hx
    unfold clampQ
    rw [min_eq_right (le_trans hx (by norm_num))]
    exact max_eq_left hx
  have hi1 : ∀ x : ℚ, 1 ≤ x → float32_to_int16_pcm [x] = float32_to_int16_pcm [1] := by
    intro x hx
    simp [float32_to_int16_pcm, hclamp_hi x hx, hclamp_hi 1 le_rfl]
  have lo1 : ∀ x : ℚ, x ≤ -1 → float32_to_int16_pcm [x] = float32_to_int16_pcm [-1] := by
    intro x hx
    simp [float32_to_int16_pcm, hclamp_lo x hx, hclamp_lo (-1) le_rfl]
  have hbound : ∀ x : ℚ, -32767 ≤ truncQ (clampQ x * 32767) ∧ truncQ (clampQ x * 32767) ≤ 32767 := by
    intro x
    have h1 : -1 ≤ clampQ x := le_max_left _ _
    have h2 : clampQ x ≤ 1 := max_le (by norm_num) (min_le_left _ _)
    have hlo : (-32767 : ℚ) ≤ clampQ x * 32767 := by nlinarith
    have hhi : clampQ x * 32767 ≤ 32767 := by nlinarith
    unfold truncQ
    by_cases h : (0 : ℚ) ≤ clampQ x * 32767
    · rw [if_pos h]
      constructor
      · have : (0 : Int) ≤ ⌊clampQ x * 32767⌋ := Int.floor_nonneg.mpr h
        omega
      · have : ⌊clampQ x * 32767⌋ < 32768 := by
          rw [Int.floor_lt]
          push_cast
          linarith
        omega
    · rw [if_neg h]
      constructor
      · have : (-32768 : Int) < ⌈clampQ x * 32767⌉ := by
          rw [Int.lt_ceil]
          push_cast
          linarith
        omega
      · have : ⌈clampQ x * 32767⌉ ≤ 0 := by
          rw [Int.ceil_le]
          push_cast
          linarith [le_of_not_le h]
        omega
  have hzero : float32_to_int16_pcm [0] = [0, 0] := by
    have hc : clampQ 0 = 0 := by
      unfold clampQ
      rw [min_eq_right (by norm_num)]
      exact max_eq_right (by norm_num)
    have ht : truncQ (clampQ 0 * 32767) = 0 := by
      rw [hc, zero_mul]
      simp [truncQ]
    simp [float32_to_int16_pcm, ht, int16ToBytesLE]
  exact ⟨hi1, lo1, hi1 2 (by norm_num), lo1 (-5) (by norm_num), hzero, hbound, fun _ => rfl⟩

/-- Witness for C6: the clamping conjuncts applied at the out-of-range
inputs 2 and -5. -/
theorem pcm_encoder_clamps_and_truncates_witness :
    float32_to_int16_pcm [(2 : ℚ)] = float32_to_int16_pcm [1] ∧
    float32_to_int16_pcm [(-5 : ℚ)] = float32_to_int16_pcm [-1] :=
  ⟨pcm_encoder_clamps_and_truncates.1 2 (by decide),
    pcm_encoder_clamps_and_truncates.2.1 (-5) (by decide)⟩

/-- C8: for text that is empty or whitespace-only, the generation writes
exactly the four zero bytes of one end marker, emits no data frame and no
diagnostic, and never consults the model stream (the result is the same for
any two streams). -/
theorem empty_text_writes_only_marker (text : String) (stream stream' : List StreamItem)
    (intr : Option Nat) (h : strip_empty text = true) :
    handle_generate text stream intr = ([OutEvent.marker], []) ∧
    wireOutput (handle_generate text stream intr).1 = [0, 0, 0, 0] ∧
    handle_generate text stream intr = handle_generate text stream' intr := by
  have he : handle_generate text stream intr = ([OutEvent.marker], []) := by
    simp [handle_generate, h]
  have he' : handle_generate text stream' intr = ([OutEvent.marker], []) := by
    simp [handle_generate, h]
  refine ⟨he, ?_, he.trans he'.symm⟩
  rw [he]
  decide

/-- Witness for C8: the empty string request. -/
theorem empty_text_writes_only_marker_witness :
    handle_generate "" [StreamItem.chunk [1]] Option.none = ([OutEvent.marker], []) ∧
    wireOutput (handle_generate "" [StreamItem.chunk [1]] Option.none).1 = [0, 0, 0, 0] ∧
    handle_generate "" [StreamItem.chunk [1]] Option.none
      = handle_generate "" [StreamItem.err "boom"] Option.none :=
  empty_text_writes_only_marker "" [StreamItem.chunk [1]] [StreamItem.err "boom"]
    Option.none (by decide)

/-- Witness for C2: a three-chunk stream interrupted after the second chunk. -/
theorem interrupt_truncates_stream_witness :
    (handle_generate "hi" (([[1], [1], [1]] : List (List ℚ)).map StreamItem.chunk) (some 2)).1
      = (([[1], [1], [1]] : List (List ℚ)).take 2).map
          (fun a => OutEvent.data (float32_to_int16_pcm a)) ++ [OutEvent.marker] ∧
    (preMarker (handle_generate "hi"
        (([[1], [1], [1]] : List (List ℚ)).map StreamItem.chunk) (some 2)).1).length ≤ 2 ∧
    (∃ t0, wireOutput (preMarker (handle_generate "hi"
            (([[1], [1], [1]] : List (List ℚ)).map StreamItem.chunk) (some 2)).1) ++ t0
        = wireOutput (handle_generate "hi"
            (([[1], [1], [1]] : List (List ℚ)).map StreamItem.chunk) Option.none).1
      ∧ t0 ≠ []) ∧
    (∃ t1, wireOutput (preMarker (handle_generate "hi"
            (([[1], [1], [1]] : List (List ℚ)).map StreamItem.chunk) (some 2)).1) ++ t1
        = wireOutput (preMarker (handle_generate "hi"
            (([[1], [1], [1]] : List (List ℚ)).map StreamItem.chunk) Option.none).1)
      ∧ t1 ≠ []) :=
  interrupt_truncates_stream [[1], [1], [1]] 2 "hi" (by decide) (by decide)

/-! Claim theorems: main loop, startup, reader thread. -/

/-- C5 (code bug): the reader catches only JSON decode errors.  A line whose
JSON value is not an object (here the integer 5) makes `cmd.get("cmd")`
raise an uncaught AttributeError: the reader thread dies without logging a
diagnostic, and a subsequent valid generate command is never enqueued, so
it is never processed.  Lines that fail JSON decoding, by contrast, are
logged and discarded as the claim says. -/
theorem non_object_line_kills_reader :
    stdin_reader [StdinLine.ok (PyVal.int 5),
        StdinLine.ok (PyVal.dict [("cmd", PyVal.str "generate"), ("text", PyVal.str "hi")])]
      = ⟨false, [], [], true⟩ ∧
    readLine (StdinLine.invalid "Expecting value")
      = ReaderAction.log (log_line ("ERROR: Invalid JSON: " ++ "Expecting value")) :=
  ⟨rfl, rfl⟩

/-- C7: with Generate(A) queued ahead of Generate(B), the controller runs A
to its end marker before starting B, so the loop's output is A's frames
(ending in A's unique end marker) followed by B's frames: no frame of B
precedes A's end marker. -/
theorem queued_generations_in_order (modelOf : String → List StreamItem)
    (intr : Nat → Option Nat) (cA cB : PyVal) (rest : List PyVal) (tA tB : String) (gi : Nat)
    (hA : pyGet cA "cmd" = Except.ok (PyVal.str "generate")) (hTA : textArg cA = some tA)
    (hB : pyGet cB "cmd" = Except.ok (PyVal.str "generate")) (hTB : textArg cB = some tB) :
    (main_loop modelOf intr (cA :: cB :: rest) gi).output
      = (handle_generate tA (modelOf tA) (intr gi)).1
        ++ ((handle_generate tB (modelOf tB) (intr (gi + 1))).1
          ++ (main_loop modelOf intr rest (gi + 2)).output) ∧
    (∃ ds, (handle_generate tA (modelOf tA) (intr gi)).1 = ds ++ [OutEvent.marker] ∧
      ∀ f ∈ ds, f ≠ OutEvent.marker) := by
  constructor
  · simp [main_loop, hA, hTA, hB, hTB, PyVal.eqStr]
  · exact handle_generate_shape tA (modelOf tA) (intr gi)

/-- Witness for C7: two queued generate commands for texts "a" and "b". -/
theorem queued_generations_in_order_witness :
    (main_loop (fun _ => [StreamItem.chunk [1]]) (fun _ => Option.none)
        [PyVal.dict [("cmd", PyVal.str "generate"), ("text", PyVal.str "a")],
          PyVal.dict [("cmd", PyVal.str "generate"), ("text", PyVal.str "b")]] 0).output
      = (handle_generate "a" [StreamItem.chunk [1]] Option.none).1
        ++ ((handle_generate "b" [StreamItem.chunk [1]] Option.none).1
          ++ (main_loop (fun _ => [StreamItem.chunk [1]]) (fun _ => Option.none) [] 2).output) ∧
    (∃ ds, (handle_generate "a" [StreamItem.chunk [1]] Option.none).1
        = ds ++ [OutEvent.marker] ∧ ∀ f ∈ ds, f ≠ OutEvent.marker) :=
  queued_generations_in_order (fun _ => [StreamItem.chunk [1]]) (fun _ => Option.none)
    (PyVal.dict [("cmd", PyVal.str "generate"), ("text", PyVal.str "a")])
    (PyVal.dict [("cmd", PyVal.str "generate"), ("text", PyVal.str "b")])
    [] "a" "b" 0 rfl rfl rfl rfl

/-- C9: if model loading fails, the distinguished error line is written, the
process exits with code 1, no warm-up is attempted and READY is never
emitted; if loading succeeds, exactly one warm-up is attempted, a warm-up
failure is logged as a warning and is non-fatal, and READY is emitted
exactly once whether or not the warm-up succeeded. -/
theorem startup_ready_discipline (modelId : String) (sr : Nat) (e : String)
    (w : Except String Unit) :
    (startup modelId sr (Except.error e) w).exitCode = some 1 ∧
    DiagLine.log ("ERROR: Failed to load model: " ++ e)
      ∈ (startup modelId sr (Except.error e) w).diag ∧
    (startup modelId sr (Except.error e) w).diag.countP isReady = 0 ∧
    (startup modelId sr (Except.error e) w).warmupAttempts = 0 ∧
    (startup modelId sr (Except.ok ()) w).warmupAttempts = 1 ∧
    (startup modelId sr (Except.ok ()) w).diag.countP isReady = 1 ∧
    (startup modelId sr (Except.ok ()) w).exitCode = Option.none ∧
    DiagLine.log ("WARNING: Warm-up failed: " ++ e)
      ∈ (startup modelId sr (Except.ok ()) (Except.error e)).diag := by
  refine ⟨rfl, ?_, ?_, rfl, ?_, ?_, ?_, ?_⟩
  · simp [startup]
  · simp [startup, List.countP_cons, isReady]
  · cases w <;> rfl
  · cases w <;> simp [startup, List.countP_cons, isReady]
  · cases w <;> rfl
  · simp [startup]

/-- C10: a generate command whose object has no "text" field runs with the
default empty string: the model is never invoked (the result is the same
for every model adapter) and the loop emits exactly one end marker with no
data frames and no diagnostic. -/
theorem missing_text_field_defaults_empty (modelOf : String → List StreamItem)
    (intr : Nat → Option Nat) (fields : List (String × PyVal)) (gi : Nat)
    (hcmd : pyGet (PyVal.dict fields) "cmd" = Except.ok (PyVal.str "generate"))
    (htext : fields.reverse.find? (fun p => p.1 == "text") = Option.none) :
    main_loop modelOf intr [PyVal.dict fields] gi
      = ⟨[OutEvent.marker], [], false⟩ := by
  have ht : textArg (PyVal.dict fields) = some "" := by
    simp [textArg, htext]
  have hg : handle_generate "" (modelOf "") (intr gi) = ([OutEvent.marker], []) := by
    simp [handle_generate, show strip_empty "" = true from rfl]
  simp [main_loop, hcmd, ht, hg, PyVal.eqStr]

/-- Witness for C10: the command object containing only the cmd key. -/
theorem missing_text_field_defaults_empty_witness :
    main_loop (fun _ => [StreamItem.chunk [1]]) (fun _ => Option.none)
      [PyVal.dict [("cmd", PyVal.str "generate")]] 0
      = ⟨[OutEvent.marker], [], false⟩ :=
  missing_text_field_defaults_empty (fun _ => [StreamItem.chunk [1]]) (fun _ => Option.none)
    [("cmd", PyVal.str "generate")] 0 rfl rfl

/-! Helper lemmas about the interleaved reader/controller system. -/

lemma readerStep_keeps (s : Sys) :
    (readerStep s).output = s.output ∧ (readerStep s).phase = s.phase ∧
    (readerStep s).stopped = s.stopped := by
  unfold readerStep
  split
  · exact ⟨rfl, rfl, rfl⟩
  · split
    · exact ⟨rfl, rfl, rfl⟩
    · split <;> exact ⟨rfl, rfl, rfl⟩

lemma readerStep_flag (s : Sys) (h : noInterrupt s.stdin) :
    (readerStep s).flag = s.flag := by
  unfold readerStep
  split
  · rfl
  split
  · rfl
  rename_i l rest hstdin
  split
  · rfl
  · rfl
  · rename_i hact
    exact absurd hact (h l (by rw [hstdin]; exact List.mem_cons_self l rest))
  · rfl
  · rfl

lemma readerStep_noInterrupt (s : Sys) (h : noInterrupt s.stdin) :
    noInterrupt (readerStep s).stdin := by
  unfold readerStep
  split
  · exact h
  split
  · exact h
  rename_i l rest hstdin
  have htl : noInterrupt rest := by
    intro l' hl'
    exact h l' (by rw [hstdin]; exact List.mem_cons_of_mem l hl')
  split <;> exact htl

lemma ctlStep_out (modelOf : String → List StreamItem) (s : Sys) :
    ∃ t, (ctlStep modelOf s).output = s.output ++ t := by
  unfold ctlStep
  repeat' split
  all_goals
    first
      | exact ⟨_, rfl⟩
      | exact ⟨[], (List.append_nil _).symm⟩

lemma step_out (modelOf : String → List StreamItem) (s : Sys) (l : Lbl) :
    ∃ t, (step modelOf s l).output = s.output ++ t := by
  cases l with
  | reader =>
    refine ⟨[], ?_⟩
    show (readerStep s).output = s.output ++ []
    rw [(readerStep_keeps s).1, List.append_nil]
  | ctl => exact ctlStep_out modelOf s

lemma run_out (modelOf : String → List StreamItem) :
    ∀ (ls : List Lbl) (s : Sys), ∃ t, (run modelOf s ls).output = s.output ++ t := by
  intro ls
  induction ls with
  | nil => intro s; exact ⟨[], (List.append_nil _).symm⟩
  | cons l ls ih =>
    intro s
    rcases step_out modelOf s l with ⟨t1, h1⟩
    rcases ih (step modelOf s l) with ⟨t2, h2⟩
    refine ⟨t1 ++ t2, ?_⟩
    have hrun : run modelOf s (l :: ls) = run modelOf (step modelOf s l) ls := rfl
    rw [hrun, h2, h1, List.append_assoc]

lemma gen_completes (modelOf : String → List StreamItem) :
    ∀ (ls : List Lbl) (chunks : List (List ℚ)) (s : Sys),
      s.phase = Phase.gen (chunks.map StreamItem.chunk) →
      s.flag = false → s.stopped = false → noInterrupt s.stdin →
      chunks.length < ctlCount ls →
      ∃ t, (run modelOf s ls).output
        = s.output ++ chunks.map (fun a => OutEvent.data (float32_to_int16_pcm a))
          ++ [OutEvent.marker] ++ t := by
  intro ls
  induction ls with
  | nil =>
    intro chunks s _ _ _ _ hcount
    simp [ctlCount] at hcount
  | cons l ls ih =>
    intro chunks s hphase hflag hstop hni hcount
    cases l with
    | reader =>
      have hk := readerStep_keeps s
      have hrun : run modelOf s (Lbl.reader :: ls) = run modelOf (readerStep s) ls := rfl
      have hcount' : chunks.length < ctlCount ls := by
        simpa [ctlCount] using hcount
      rcases ih chunks (readerStep s) (hk.2.1.trans hphase) ((readerStep_flag s hni).trans hflag)
          (hk.2.2.trans hstop) (readerStep_noInterrupt s hni) hcount' with ⟨t, hout⟩
      exact ⟨t, by rw [hrun, hout, hk.1]⟩
    | ctl =>
      have hrun : run modelOf s (Lbl.ctl :: ls) = run modelOf (ctlStep modelOf s) ls := rfl
      cases chunks with
      | nil =>
        have hstep : ctlStep modelOf s
            = { s with phase := Phase.idle, output := s.output ++ [OutEvent.marker] } := by
          simp [ctlStep, hstop, hphase]
        rcases run_out modelOf ls (ctlStep modelOf s) with ⟨t, hout⟩
        refine ⟨t, ?_⟩
        rw [hrun, hout, hstep]
        simp
      | cons a as =>
        have hstep : ctlStep modelOf s
            = { s with
                  phase := Phase.gen (as.map StreamItem.chunk),
                  output := s.output ++ [OutEvent.data (float32_to_int16_pcm a)] } := by
          simp [ctlStep, hstop, hphase, hflag]
        have hcount' : as.length < ctlCount ls := by
          simp only [ctlCount, List.length_cons] at hcount ⊢
          omega
        rcases ih as (ctlStep modelOf s) (by rw [hstep]) (by rw [hstep]; exact hflag)
            (by rw [hstep]; exact hstop) (by rw [hstep]; exact hni) hcount' with ⟨t, hout⟩
        refine ⟨t, ?_⟩
        rw [hrun, hout, hstep]
        simp

/-- C3: a parsed object whose cmd field equals "interrupt" sets the
interrupt flag and is never placed on the command queue; consequently an
interrupt observed during one generation affects only that generation: the
controller clears the flag when it pops the next queued Generate(B), so
whatever the flag's current value, if no interrupt line is consumed while B
runs then all of B's chunks followed by B's end marker appear in the
output. -/
theorem interrupt_bypasses_queue_and_is_generation_scoped :
    (∀ (s : Sys) (v : PyVal) (tl : List StdinLine),
      s.readerDead = false → s.stdin = StdinLine.ok v :: tl →
      pyGet v "cmd" = Except.ok (PyVal.str "interrupt") →
      (readerStep s).flag = true ∧ (readerStep s).queue = s.queue) ∧
    (∀ (modelOf : String → List StreamItem) (s : Sys) (c : PyVal) (rest : List PyVal)
        (t : String) (chunks : List (List ℚ)) (sched : List Lbl),
      s.phase = Phase.idle → s.stopped = false → s.queue = c :: rest →
      pyGet c "cmd" = Except.ok (PyVal.str "generate") → textArg c = some t →
      strip_empty t = false → modelOf t = chunks.map StreamItem.chunk →
      noInterrupt s.stdin → chunks.length < ctlCount sched →
      ∃ tl, (run modelOf s (Lbl.ctl :: sched)).output
        = s.output ++ chunks.map (fun a => OutEvent.data (float32_to_int16_pcm a))
          ++ [OutEvent.marker] ++ tl) := by
  constructor
  · intro s v tl hdead hstdin hcmd
    have hline : readLine (StdinLine.ok v) = ReaderAction.setFlag := by
      simp [readLine, hcmd, PyVal.eqStr]
    unfold readerStep
    rw [if_neg (by simp [hdead]), hstdin]
    refine ⟨?_, ?_⟩ <;> simp [hline]
  · intro modelOf s c rest t chunks sched hphase hstop hqueue hcmd htext hstrip hmodel
      hni hcount
    have hstep : ctlStep modelOf s
        = { s with queue := rest, flag := false, phase := Phase.gen (modelOf t) } := by
      simp [ctlStep, hstop, hphase, hqueue, hcmd, htext, hstrip, PyVal.eqStr]
    have hrun : run modelOf s (Lbl.ctl :: sched) = run modelOf (ctlStep modelOf s) sched := rfl
    rcases gen_completes modelOf sched chunks (ctlStep modelOf s)
        (by rw [hstep, hmodel]) (by rw [hstep]) (by rw [hstep]; exact hstop)
        (by rw [hstep]; exact hni) hcount with ⟨tl, hout⟩
    refine ⟨tl, ?_⟩
    rw [hrun, hout, hstep]

/-- Witness for C3: an interrupt line sets the flag without queueing, and a
system whose flag is still set from the previous generation still runs the
queued Generate("b") to completion under a controller-only schedule. -/
theorem interrupt_bypasses_queue_and_is_generation_scoped_witness :
    ((readerStep readerWitnessSys).flag = true ∧
      (readerStep readerWitnessSys).queue = readerWitnessSys.queue) ∧
    (∃ tl, (run (fun _ => [StreamItem.chunk [1]]) scopeWitnessSys
          [Lbl.ctl, Lbl.ctl, Lbl.ctl]).output
        = scopeWitnessSys.output
          ++ ([[1]] : List (List ℚ)).map (fun a => OutEvent.data (float32_to_int16_pcm a))
          ++ [OutEvent.marker] ++ tl) :=
  ⟨interrupt_bypasses_queue_and_is_generation_scoped.1 readerWitnessSys
      (PyVal.dict [("cmd", PyVal.str "interrupt")]) [] rfl rfl rfl,
    interrupt_bypasses_queue_and_is_generation_scoped.2
      (fun _ => [StreamItem.chunk [1]]) scopeWitnessSys
      (PyVal.dict [("cmd", PyVal.str "generate"), ("text", PyVal.str "b")]) [] "b" [[1]]
      [Lbl.ctl, Lbl.ctl] rfl rfl rfl rfl rfl (by decide) rfl
      (fun l hl => absurd hl (List.not_mem_nil l)) (by decide)⟩

end TtsServer
